import Mathlib

/-!
Verification development for the cymbal-air demo service.

Shallow embedding of three source files:
- `extension_service/models/models.py` — the pydantic embedding-field
  validator (namespace `Models`);
- `extension_service/app/routes.py` — the semantic-similarity-search
  route (namespace `Routes`);
- `langchain_tools_demo/main.py` — session/agent lifecycle handlers
  (namespaces `Main` and `Race`).

Numeric scalar values are modelled as exact rationals; 32-bit rounding of
`numpy.float32` is deliberately not modelled (the float32 coercion is the
identity on the modelled numeric value).  External collaborators (the
embedding provider, the datastore client, the LLM agent invocation, the
markdown formatter) are passed in as function or result parameters, matching
their role as capability interfaces.
-/

namespace Models

/-- A Python value as seen by the `embedding` field validator
(`models.py`, `Airport.validate` / `Amenity.validate`).

A Python string is modelled together with the outcomes of the three ways
the validation pipeline can consume it: `lit` is the result of
`ast.literal_eval` on the string (`none` when that call raises), `numDen`
is the numeric denotation used by `numpy.float32` applied to the string
(`none` when that raises), and `chars` is the string's character sequence
— iterating a Python string yields its characters as one-character
strings — with each character as a string value of its own.  The pipeline
only ever applies `float32` to those character values, so the fields of a
character value it never consumes (its own `lit` and `chars`) are left
empty.  A dict literal is modelled by its list of keys, because iterating
a Python dict yields its keys and the validator never observes the
values.  `pyOther` stands for any other (non-literal) Python object. -/
inductive PyVal where
  | pyNone : PyVal
  | pyNum (q : ℚ) : PyVal
  | pyStr (lit : Option PyVal) (numDen : Option ℚ) (chars : List PyVal) : PyVal
  | pyList (xs : List PyVal) : PyVal
  | pyTuple (xs : List PyVal) : PyVal
  | pySet (xs : List PyVal) : PyVal
  | pyDict (keys : List PyVal) : PyVal
  | pyOther : PyVal

/-- Errors raised while validating the `embedding` field: a failing
`ast.literal_eval` (`parseError`), iterating a non-iterable
(`iterError`), a failing `float32(f)` coercion (`coerceError`), and the
pydantic type check of `Optional[list[float32]]` rejecting the value
(`typeError`). -/
inductive ValErr where
  | parseError : ValErr
  | iterError : ValErr
  | coerceError : ValErr
  | typeError : ValErr
deriving DecidableEq

/-- Python iteration `for f in v` on a value: lists, tuples and sets yield
their elements, dicts yield their keys, strings yield their characters as
one-character strings; numbers, `None` and other objects are not iterable
(TypeError). -/
def pyIter : PyVal → Option (List PyVal)
  | .pyList xs => some xs
  | .pyTuple xs => some xs
  | .pySet xs => some xs
  | .pyDict ks => some ks
  | .pyStr _ _ cs => some cs
  | _ => none

/-- The coercion `numpy.float32(f)` on one element: numeric values are
accepted (exact-rational model of the resulting float32), a string is
accepted exactly when it has a numeric denotation, everything else raises. -/
def float32Coerce : PyVal → Option ℚ
  | .pyNum q => some q
  | .pyStr _ (some q) _ => some q
  | _ => none

/-- The list comprehension `[float32(f) for f in v]`: coerce every
element in order, failing on the first element whose coercion raises. -/
def coerceAll : List PyVal → Option (List ℚ)
  | [] => some []
  | x :: xs =>
    match float32Coerce x, coerceAll xs with
    | some q, some qs => some (q :: qs)
    | _, _ => none

/-- The `mode="before"` field validator from `models.py` lines 35-40 /
56-61: if the value is exactly a `str`, run `ast.literal_eval` on it,
iterate the resulting literal and coerce every element with
`numpy.float32`, producing a native list of float32 values; any other
value is returned unchanged. -/
def validate : PyVal → Except ValErr PyVal
  | .pyStr lit _ _ =>
    match lit with
    | none => .error .parseError
    | some l =>
      match pyIter l with
      | none => .error .iterError
      | some elems =>
        match coerceAll elems with
        | none => .error .coerceError
        | some qs => .ok (.pyList (qs.map .pyNum))
  | v => .ok v

/-- Whether a value is a numeric scalar (a float32 in the exact-rational
model). -/
def isNumVal : PyVal → Bool
  | .pyNum _ => true
  | _ => false

/-- The pydantic v2 validation of the declared field type
`Optional[list[float32]]` (`models.py` line 33 / 54, with
`arbitrary_types_allowed`), in the default lax mode: `None` passes the
`Optional`; a list passes when every element is a float32 instance
(arbitrary types are checked by `isinstance`, with no element coercion);
sequence-like inputs such as tuples and sets are lax-coerced to a list
and their elements checked the same way; dicts, strings, numbers and
other objects are rejected for a list field. -/
def fieldCheck : PyVal → Except ValErr PyVal
  | .pyNone => .ok .pyNone
  | .pyList xs => if xs.all isNumVal then .ok (.pyList xs) else .error .typeError
  | .pyTuple xs => if xs.all isNumVal then .ok (.pyList xs) else .error .typeError
  | .pySet xs => if xs.all isNumVal then .ok (.pyList xs) else .error .typeError
  | _ => .error .typeError

/-- Full validation of a supplied `embedding` value: the before-validator
followed by the field type check. -/
def embeddingField (v : PyVal) : Except ValErr PyVal :=
  validate v >>= fieldCheck

end Models

namespace Routes

/-- A call issued to the datastore's `semantic_similarity_search`
(the Vector Store): the query embedding, the similarity threshold and the
result limit, in the order of `routes.py` line 36. -/
structure VSCall where
  embedding : List ℚ
  threshold : ℚ
  limit : Int
deriving DecidableEq

/-- The observable effect trace of one handler run: the query text passed
to the embedding service, and the Vector Store call issued (if any). -/
structure SearchTrace where
  embeddedQuery : Option String
  vsCall : Option VSCall
deriving DecidableEq

/-- The route handler `semantic_similarity_search` from `routes.py` lines
29-37.  `embed` is the embedding service (`embed_service.embed_query`) and
`ds` the datastore client call, both external capabilities injected via
application state.  The handler embeds the query, then calls the datastore
with the fixed threshold `0.7` and limit `top_k`, and returns the results;
it performs no validation of `top_k`. -/
def semantic_similarity_search (embed : String → List ℚ)
    (ds : List ℚ → ℚ → Int → List Nat) (query : String) (top_k : Int) :
    SearchTrace × List Nat :=
  let query_embedding := embed query
  ({ embeddedQuery := some query,
     vsCall := some ⟨query_embedding, 7/10, top_k⟩ },
   ds query_embedding (7/10) top_k)

end Routes

namespace Main

/-- One entry of a session's `messages` list: a role ("user" or
"assistant") and content. -/
structure ChatTurn where
  role : String
  content : String
deriving DecidableEq

/-- `BASE_HISTORY` from `main.py` line 50: the fixed initial assistant
greeting. -/
def BASE_HISTORY : List ChatTurn := [⟨"assistant", "How can I help you?"⟩]

/-- A user agent held in the `user_agents` registry.  `id` identifies the
constructed instance; `closeFails` models whether `client.close()` on this
agent's network client raises when awaited. -/
structure Agent where
  id : Nat
  closeFails : Bool
deriving DecidableEq

/-- The process-wide `user_agents` dict, keyed by session uuid.  Insertion
is modelled by cons; `List.lookup` gives dict-lookup semantics (the most
recent binding of a key shadows older ones, matching dict overwrite). -/
abbrev Registry := List (String × Agent)

/-- The cookie-backed starlette session of one client: the optional
`uuid` and `messages` keys (absent keys are `none`), and `client_id`. -/
structure Session where
  uuid : Option String
  messages : Option (List ChatTurn)
  client_id : Option String
deriving DecidableEq

/-- The `index` handler (`main.py` lines 53-73): store the client id; if
the session has no uuid, install a fresh uuid and the base history; then
reuse the registered agent for this uuid, or construct one (`init_agent`,
modelled by the injected `freshAgent`) and register it.  Returns the
updated session, the updated registry and the agent used. -/
def index (freshUuid : String) (freshAgent : Agent) (clientId : Option String)
    (sess : Session) (reg : Registry) : Session × Registry × Agent :=
  let s1 := { sess with client_id := clientId }
  let s2 := match s1.uuid with
    | none => { s1 with uuid := some freshUuid, messages := some BASE_HISTORY }
    | some _ => s1
  let u := s2.uuid.getD ""
  match reg.lookup u with
  | some a => (s2, reg, a)
  | none => (s2, (u, freshAgent) :: reg, freshAgent)

/-- Failure of the login handler: missing credential (HTTP 401). -/
inductive LoginErr where
  | noCredential : LoginErr
deriving DecidableEq

/-- The `login_google` handler (`main.py` lines 76-93): reject when the
form carries no credential; otherwise install a fresh session uuid and the
base history, construct an agent bound to the token (modelled by
`freshAgent`) and register it under the fresh uuid.  The returned
`List Agent` lists the agents whose network client the handler closed
(always empty: login closes nothing). -/
def login_google (freshUuid : String) (freshAgent : Agent)
    (credential : Option String) (sess : Session) (reg : Registry) :
    Except LoginErr (Session × Registry × List Agent) :=
  match credential with
  | none => .error .noCredential
  | some _ =>
    .ok ({ sess with uuid := some freshUuid, messages := some BASE_HISTORY },
         (freshUuid, freshAgent) :: reg, [])

/-- Failures of the chat handler.  `invalidInput` is the HTTP 400 for an
empty prompt, `sessionNotFound` the HTTP 400 when the session has no uuid,
`keyErrorMessages` / `keyErrorAgents` are unhandled Python `KeyError`s from
`request.session["messages"]` resp. `user_agents[...]`, and
`agentError` the HTTP 500 wrapping an agent invocation failure. -/
inductive ChatErr where
  | invalidInput : ChatErr
  | sessionNotFound : ChatErr
  | keyErrorMessages : ChatErr
  | keyErrorAgents : ChatErr
  | agentError (cause : String) : ChatErr
deriving DecidableEq

/-- The HTTP detail string attached to each handled chat failure, from the
`HTTPException` calls in `main.py` (the two `KeyError`s are unhandled and
carry no detail). -/
def ChatErr.detail : ChatErr → String
  | .invalidInput => "Error: No user query"
  | .sessionNotFound => "Error: Invoke index handler before start chatting"
  | .keyErrorMessages => ""
  | .keyErrorAgents => ""
  | .agentError cause => "Error invoking agent: " ++ cause

/-- The `chat_handler` (`main.py` lines 96-119).  `fmt` is the markdown
formatter (external library), `agentResult` the outcome of
`user_agent.agent.ainvoke` for this call (`Except.ok` carries
`response["output"]`, `Except.error` the raised exception's message).
Steps, in source order: reject an empty prompt; reject a session without a
uuid; append the user turn to `messages`; look the agent up in the
registry (an absent key raises an unhandled `KeyError`); invoke the agent,
and on success append the assistant turn and return the formatted output,
while any invocation failure is re-raised as an HTTP 500 carrying the
cause.  The session state at the point of the failure is returned
alongside, because session mutations made before a failure persist. -/
def chat_handler (fmt : String → String) (agentResult : Except String String)
    (prompt : String) (sess : Session) (reg : Registry) :
    Session × Except ChatErr String :=
  if prompt = "" then (sess, .error .invalidInput)
  else
    match sess.uuid with
    | none => (sess, .error .sessionNotFound)
    | some u =>
      match sess.messages with
      | none => (sess, .error .keyErrorMessages)
      | some msgs =>
        let s1 := { sess with messages := some (msgs ++ [⟨"user", prompt⟩]) }
        match reg.lookup u with
        | none => (s1, .error .keyErrorAgents)
        | some _ =>
          match agentResult with
          | .error e => (s1, .error (.agentError e))
          | .ok r =>
            ({ sess with
                messages := some (msgs ++ [⟨"user", prompt⟩, ⟨"assistant", r⟩]) },
             .ok (fmt r))

/-- Failures of the reset handler: an unhandled `KeyError` on
`request.session["uuid"]`, the HTTP 500 "Current agent not found", and a
propagated failure of the awaited `client.close()`. -/
inductive ResetErr where
  | keyErrorUuid : ResetErr
  | agentNotFound : ResetErr
  | closeError : ResetErr
deriving DecidableEq

/-- Outcome of the reset handler: the error raised (if any) together with
the session and registry state after the call. -/
structure ResetResult where
  error : Option ResetErr
  sess : Session
  reg : Registry
deriving DecidableEq

/-- The `reset` handler (`main.py` lines 122-133): read the session uuid
(an absent key raises `KeyError`); fail with HTTP 500 when the uuid is not
registered; await `client.close()` on the registered agent — this await is
not guarded, so a close failure propagates and neither the registry entry
nor the session is touched; on success delete the registry entry and clear
the session. -/
def reset (sess : Session) (reg : Registry) : ResetResult :=
  match sess.uuid with
  | none => ⟨some .keyErrorUuid, sess, reg⟩
  | some u =>
    match reg.lookup u with
    | none => ⟨some .agentNotFound, sess, reg⟩
    | some a =>
      if a.closeFails then ⟨some .closeError, sess, reg⟩
      else ⟨none, ⟨none, none, none⟩, reg.filter (fun p => p.1 != u)⟩

/-- Outcome of application shutdown: the agents whose `client.close()` was
spawned as a task, and the error propagated to the caller (if any). -/
structure ShutdownResult where
  spawnedCloses : List Agent
  error : Option ResetErr
deriving DecidableEq

/-- The shutdown half of `lifespan` (`main.py` lines 36-41): create one
`client.close()` task per registered agent, then call `asyncio.gather`
without awaiting it.  The tasks are fire-and-forget, so no close failure
can reach the shutdown code: the error component is always `none`. -/
def lifespan_shutdown (reg : Registry) : ShutdownResult :=
  { spawnedCloses := reg.map (·.2), error := none }

/-- One chat step for the reachability analysis: the session state after a
chat call with the given prompt, the given agent outcome, and the identity
formatter (the formatter does not influence session state). -/
def chatStep (reg : Registry) (sess : Session)
    (ev : String × Except String String) : Session :=
  (chat_handler id ev.2 ev.1 sess reg).1

/-- The session state after a sequence of chat calls against a fixed
registry (`chat_handler` never mutates the registry). -/
def runChats (reg : Registry) (sess : Session)
    (evs : List (String × Except String String)) : Session :=
  evs.foldl (chatStep reg) sess

/-- Session/registry pairs produced by session creation: a first `index`
visit (the request's session has no uuid yet) or a successful
`login_google`. -/
inductive Created : Session → Registry → Prop where
  | viaIndex (sess : Session) (reg : Registry) (fu : String) (fa : Agent)
      (cid : Option String) (h : sess.uuid = none) :
      Created (index fu fa cid sess reg).1 (index fu fa cid sess reg).2.1
  | viaLogin (sess : Session) (reg : Registry) (fu : String) (fa : Agent)
      (cred : String) (s2 : Session) (reg2 : Registry) (cl : List Agent)
      (h : login_google fu fa (some cred) sess reg = .ok (s2, reg2, cl)) :
      Created s2 reg2

end Main

namespace Race

/-- Shared state of the agent-setup section of the `index` handler
(`main.py` lines 61-65): the `user_agents` dict (agents identified by
construction number) and the count of `init_agent` constructions so far. -/
structure RState where
  reg : List (String × Nat)
  nextId : Nat
deriving DecidableEq

/-- Program counter of one request task running the agent-setup section.
`ready`: about to run the membership check (line 61); `awaitingCreate`:
suspended inside `await init_agent(...)` (line 64) — the check found no
entry, the insert has not happened yet; `done r`: finished, using agent
`r`. -/
inductive TPC where
  | ready : TPC
  | awaitingCreate : TPC
  | done (result : Nat) : TPC
deriving DecidableEq

/-- One atomic step of a task for session id `u`.  From `ready` the task
runs the check: an existing entry is reused (lines 61-62), otherwise the
task suspends into `await init_agent`.  From `awaitingCreate` the task
resumes with a freshly constructed agent and immediately inserts it
(line 65) — resumption and insert form one atomic block because no await
separates them.  The suspension between the two steps is where other
tasks may interleave. -/
def taskStep (u : String) : RState → TPC → RState × TPC
  | st, .ready =>
    match st.reg.lookup u with
    | some a => (st, .done a)
    | none => (st, .awaitingCreate)
  | st, .awaitingCreate =>
    (⟨(u, st.nextId) :: st.reg, st.nextId + 1⟩, .done st.nextId)
  | st, .done r => (st, .done r)

/-- Two tasks sharing the registry state. -/
structure Cfg where
  st : RState
  t1 : TPC
  t2 : TPC
deriving DecidableEq

/-- Run one scheduler choice: `true` steps task 1, `false` steps task 2. -/
def schedStep (u : String) (c : Cfg) (pick : Bool) : Cfg :=
  if pick then
    let p := taskStep u c.st c.t1
    ⟨p.1, p.2, c.t2⟩
  else
    let p := taskStep u c.st c.t2
    ⟨p.1, c.t1, p.2⟩

/-- Run a whole schedule. -/
def run (u : String) (c : Cfg) (sched : List Bool) : Cfg :=
  sched.foldl (schedStep u) c

/-- Both tasks at the start, empty registry, no construction yet. -/
def init : Cfg := ⟨⟨[], 0⟩, .ready, .ready⟩

end Race

section Fixtures

/-- A concrete embedding service for closed-instance checks. -/
def embed0 : String → List ℚ := fun _ => [1]

/-- A concrete datastore client for closed-instance checks. -/
def ds0 : List ℚ → ℚ → Int → List Nat := fun _ _ _ => []

/-- A one-character string value carrying the numeric denotation that
`numpy.float32` gives that character (`none` when it raises); the fields
of a character value the validation pipeline never consumes are left
empty. -/
def chr (den : Option ℚ) : Models.PyVal := .pyStr none den []

/-- The Python string "(0.5, 1.5)": its `ast.literal_eval` result is the
tuple `(0.5, 1.5)` — a string-encoded tuple, not a list — the whole text
has no numeric denotation, and its characters are
`(`, `0`, `.`, `5`, `,`, ` `, `1`, `.`, `5`, `)`. -/
def tupleStr : Models.PyVal :=
  .pyStr (some (.pyTuple [.pyNum (1/2), .pyNum (3/2)])) none
    [chr none, chr (some 0), chr none, chr (some 5), chr none, chr none,
     chr (some 1), chr none, chr (some 5), chr none]

end Fixtures

/-- Coercing a list of numeric scalars element-wise succeeds and returns
the underlying rationals. -/
theorem coerceAll_nums (xs : List ℚ) :
    Models.coerceAll (xs.map Models.PyVal.pyNum) = some xs := by
  induction xs with
  | nil => rfl
  | cons q t ih => simp [Models.coerceAll, Models.float32Coerce, ih]

/-- A list of numeric scalars passes the element type check. -/
theorem all_isNumVal_map (xs : List ℚ) :
    (xs.map Models.PyVal.pyNum).all Models.isNumVal = true := by
  simp [List.all_eq_true, Models.isNumVal]

/-- Coercing a sequence of numeric one-character strings element-wise
succeeds and returns the underlying rationals. -/
theorem coerceAll_numChars (qs : List ℚ) :
    Models.coerceAll (qs.map (fun q => Models.PyVal.pyStr none (some q) [])) =
      some qs := by
  induction qs with
  | nil => rfl
  | cons q t ih => simp [Models.coerceAll, Models.float32Coerce, ih]

/-- C4 counterexample: the value `"(0.5, 1.5)"` — a string-encoded
*tuple*, which is neither a native numeric sequence nor a string-encoded
list — is silently accepted by the embedding validation and coerced into
the float32 list `[0.5, 1.5]`, instead of being rejected with a typed
parsing error as the claim requires. -/
theorem embedding_tuple_string_accepted_cex :
    Models.embeddingField tupleStr =
      .ok (.pyList [.pyNum (1/2), .pyNum (3/2)]) := rfl

/-- C4 (amended): the embedding validation accepts a native numeric
sequence — a list of float32 values unchanged, a tuple or set of float32
values lax-coerced to a list of the same elements — and accepts a
string-encoded list by parsing it and coercing each element to float32;
but for string input it accepts *any* iterable literal the same way:
tuples, sets, dict literals via their keys, and nested string literals
character-wise.  It rejects, with a typed error, strings that fail
`ast.literal_eval`, strings whose literal is not iterable (a number or
`None`), iterables containing an element that `float32` cannot coerce,
and the remaining native values — numbers, dicts, sequences with
non-float32 elements, arbitrary objects — via the field type check. -/
theorem embedding_validator_behaviour :
    (∀ xs : List ℚ,
      Models.embeddingField (.pyList (xs.map .pyNum)) =
        .ok (.pyList (xs.map .pyNum))) ∧
    (∀ xs : List ℚ,
      Models.embeddingField (.pyTuple (xs.map .pyNum)) =
        .ok (.pyList (xs.map .pyNum))) ∧
    (∀ xs : List ℚ,
      Models.embeddingField (.pySet (xs.map .pyNum)) =
        .ok (.pyList (xs.map .pyNum))) ∧
    (∀ (xs : List ℚ) (d : Option ℚ) (c : List Models.PyVal),
      Models.embeddingField (.pyStr (some (.pyList (xs.map .pyNum))) d c) =
        .ok (.pyList (xs.map .pyNum))) ∧
    (∀ (xs : List ℚ) (d : Option ℚ) (c : List Models.PyVal),
      Models.embeddingField (.pyStr (some (.pyTuple (xs.map .pyNum))) d c) =
        .ok (.pyList (xs.map .pyNum))) ∧
    (∀ (xs : List ℚ) (d : Option ℚ) (c : List Models.PyVal),
      Models.embeddingField (.pyStr (some (.pySet (xs.map .pyNum))) d c) =
        .ok (.pyList (xs.map .pyNum))) ∧
    (∀ (xs : List ℚ) (d : Option ℚ) (c : List Models.PyVal),
      Models.embeddingField (.pyStr (some (.pyDict (xs.map .pyNum))) d c) =
        .ok (.pyList (xs.map .pyNum))) ∧
    (∀ (qs : List ℚ) (l2 : Option Models.PyVal) (n2 d : Option ℚ)
        (c : List Models.PyVal),
      Models.embeddingField
          (.pyStr
            (some (.pyStr l2 n2
              (qs.map (fun q => Models.PyVal.pyStr none (some q) []))))
            d c) =
        .ok (.pyList (qs.map .pyNum))) ∧
    (∀ (d : Option ℚ) (c : List Models.PyVal),
      Models.embeddingField (.pyStr none d c) = .error .parseError) ∧
    (∀ (q : ℚ) (d : Option ℚ) (c : List Models.PyVal),
      Models.embeddingField (.pyStr (some (.pyNum q)) d c) =
        .error .iterError) ∧
    (∀ (d : Option ℚ) (c : List Models.PyVal),
      Models.embeddingField (.pyStr (some .pyNone) d c) =
        .error .iterError) ∧
    (∀ (xs : List Models.PyVal) (d : Option ℚ) (c : List Models.PyVal),
      Models.embeddingField (.pyStr (some (.pyList (.pyNone :: xs))) d c) =
        .error .coerceError) ∧
    (∀ q : ℚ, Models.embeddingField (.pyNum q) = .error .typeError) ∧
    (∀ ks : List Models.PyVal,
      Models.embeddingField (.pyDict ks) = .error .typeError) ∧
    (Models.embeddingField .pyOther = .error .typeError) ∧
    (∀ xs : List Models.PyVal,
      Models.embeddingField (.pyList (.pyOther :: xs)) =
        .error .typeError) ∧
    (Models.embeddingField .pyNone = .ok .pyNone) := by
  refine ⟨?_, ?_, ?_, ?_, ?_, ?_, ?_, ?_, ?_, ?_, ?_, ?_, ?_, ?_, ?_, ?_, ?_⟩ <;>
    intros <;>
    simp [Models.embeddingField, Models.validate, Models.pyIter,
      Models.fieldCheck, Models.coerceAll, coerceAll_nums, coerceAll_numChars,
      all_isNumVal_map, Except.bind, Bind.bind, Models.isNumVal,
      Models.float32Coerce]

/-- C2 counterexample: with `top_k = 0` the route handler does not fail
with `InvalidInput` — it has no failure path at all — and it does issue
the Vector Store call, with threshold `0.7` and limit `0`. -/
theorem search_topk_zero_calls_store_cex :
    Routes.semantic_similarity_search embed0 ds0 "coffee" 0 =
      ({ embeddedQuery := some "coffee", vsCall := some ⟨[1], 7/10, 0⟩ },
       []) := rfl

/-- C2 (amended): for every `top_k`, positive or not, the handler embeds
the query and then issues the Vector Store call with exactly the fixed
similarity threshold `0.7` and limit `top_k`, returning the store's
results; non-positive `top_k` is not rejected and no `InvalidInput`
failure exists. -/
theorem search_always_calls_store (embed : String → List ℚ)
    (ds : List ℚ → ℚ → Int → List Nat) (query : String) (top_k : Int) :
    (Routes.semantic_similarity_search embed ds query top_k).1 =
      { embeddedQuery := some query,
        vsCall := some ⟨embed query, 7/10, top_k⟩ } ∧
    (Routes.semantic_similarity_search embed ds query top_k).2 =
      ds (embed query) (7/10) top_k :=
  ⟨rfl, rfl⟩

/-- C1: when the agent invocation fails with any exception `e`, the chat
handler leaves the session's turn sequence ending at the freshly appended
`(user, prompt)` turn — no assistant entry is added for this turn — and
fails with the HTTP 500 agent-invocation error whose detail carries the
underlying cause. -/
theorem chat_agent_failure_no_partial_turn (fmt : String → String)
    (e prompt : String) (sess : Main.Session) (reg : Main.Registry)
    (u : String) (msgs : List Main.ChatTurn) (a : Main.Agent)
    (hp : prompt ≠ "") (hu : sess.uuid = some u)
    (hm : sess.messages = some msgs) (ha : reg.lookup u = some a) :
    Main.chat_handler fmt (.error e) prompt sess reg =
      ({ sess with messages := some (msgs ++ [⟨"user", prompt⟩]) },
       .error (.agentError e)) ∧
    (msgs ++ [(⟨"user", prompt⟩ : Main.ChatTurn)]).getLast? =
      some (⟨"user", prompt⟩ : Main.ChatTurn) ∧
    Main.ChatErr.detail (.agentError e) = "Error invoking agent: " ++ e := by
  refine ⟨?_, ?_, rfl⟩
  · simp [Main.chat_handler, hp, hu, hm, ha]
  · simp

/-- C1 witness at a concrete instance. -/
theorem chat_agent_failure_no_partial_turn_witness :
    Main.chat_handler id (.error "boom") "hi"
        ⟨some "u", some Main.BASE_HISTORY, none⟩ [("u", ⟨0, false⟩)] =
      (⟨some "u", some (Main.BASE_HISTORY ++ [⟨"user", "hi"⟩]), none⟩,
       .error (.agentError "boom")) ∧
    (Main.BASE_HISTORY ++ [(⟨"user", "hi"⟩ : Main.ChatTurn)]).getLast? =
      some (⟨"user", "hi"⟩ : Main.ChatTurn) ∧
    Main.ChatErr.detail (.agentError "boom") = "Error invoking agent: boom" :=
  chat_agent_failure_no_partial_turn id "boom" "hi"
    ⟨some "u", some Main.BASE_HISTORY, none⟩ [("u", ⟨0, false⟩)]
    "u" Main.BASE_HISTORY ⟨0, false⟩ (by decide) rfl rfl (by decide)

/-- C6: a successful chat call with a non-empty prompt on an existing
session appends the user turn followed by the assistant turn carrying the
agent's output, and returns the formatted output. -/
theorem chat_success_appends_turns (fmt : String → String)
    (r prompt : String) (sess : Main.Session) (reg : Main.Registry)
    (u : String) (msgs : List Main.ChatTurn) (a : Main.Agent)
    (hp : prompt ≠ "") (hu : sess.uuid = some u)
    (hm : sess.messages = some msgs) (ha : reg.lookup u = some a) :
    Main.chat_handler fmt (.ok r) prompt sess reg =
      ({ sess with
          messages := some (msgs ++ [⟨"user", prompt⟩, ⟨"assistant", r⟩]) },
       .ok (fmt r)) := by
  simp [Main.chat_handler, hp, hu, hm, ha]

/-- C6 witness at a concrete instance. -/
theorem chat_success_appends_turns_witness :
    Main.chat_handler id (.ok "sure") "hi"
        ⟨some "u", some Main.BASE_HISTORY, none⟩ [("u", ⟨0, false⟩)] =
      (⟨some "u",
        some (Main.BASE_HISTORY ++ [⟨"user", "hi"⟩, ⟨"assistant", "sure"⟩]),
        none⟩,
       .ok "sure") :=
  chat_success_appends_turns id "sure" "hi"
    ⟨some "u", some Main.BASE_HISTORY, none⟩ [("u", ⟨0, false⟩)]
    "u" Main.BASE_HISTORY ⟨0, false⟩ (by decide) rfl rfl (by decide)

/-- C9: a chat call whose session carries a uuid that is absent from the
`user_agents` registry fails with the unhandled `KeyError` from the
registry lookup — an error distinct from the session-not-found and
agent-invocation errors — and the user turn has already been appended to
the session's turn sequence at that point. -/
theorem chat_stale_uuid_key_error (fmt : String → String)
    (res : Except String String) (prompt : String) (sess : Main.Session)
    (reg : Main.Registry) (u : String) (msgs : List Main.ChatTurn)
    (hp : prompt ≠ "") (hu : sess.uuid = some u)
    (hm : sess.messages = some msgs) (ha : reg.lookup u = none) :
    Main.chat_handler fmt res prompt sess reg =
      ({ sess with messages := some (msgs ++ [⟨"user", prompt⟩]) },
       .error .keyErrorAgents) ∧
    Main.ChatErr.keyErrorAgents ≠ Main.ChatErr.sessionNotFound ∧
    ∀ c : String, Main.ChatErr.keyErrorAgents ≠ Main.ChatErr.agentError c := by
  refine ⟨?_, by decide, fun c => by simp⟩
  simp [Main.chat_handler, hp, hu, hm, ha]

/-- C9 witness at a concrete instance: a registry emptied by a process
restart while the browser still holds the old session cookie. -/
theorem chat_stale_uuid_key_error_witness :
    Main.chat_handler id (.ok "sure") "hi"
        ⟨some "u", some Main.BASE_HISTORY, none⟩ [] =
      (⟨some "u", some (Main.BASE_HISTORY ++ [⟨"user", "hi"⟩]), none⟩,
       .error .keyErrorAgents) ∧
    Main.ChatErr.keyErrorAgents ≠ Main.ChatErr.sessionNotFound ∧
    ∀ c : String, Main.ChatErr.keyErrorAgents ≠ Main.ChatErr.agentError c :=
  chat_stale_uuid_key_error id (.ok "sure") "hi"
    ⟨some "u", some Main.BASE_HISTORY, none⟩ [] "u" Main.BASE_HISTORY
    (by decide) rfl rfl rfl

/-- C5 counterexample: with a registered agent whose `client.close()`
raises, the reset handler does *not* succeed — the close failure
propagates to the caller, and neither the registry entry nor the session
is cleared. -/
theorem reset_close_failure_propagates_cex :
    Main.reset ⟨some "u", some Main.BASE_HISTORY, none⟩ [("u", ⟨0, true⟩)] =
      ⟨some .closeError, ⟨some "u", some Main.BASE_HISTORY, none⟩,
       [("u", ⟨0, true⟩)]⟩ := by decide

/-- C5 (amended): a close failure during shutdown (`dispose_all`) is
never propagated — the close tasks are fire-and-forget, so `lifespan`
shutdown always completes after spawning one close per registered agent —
but the reset handler (`dispose`) awaits the close unguarded, so a failing
close makes reset fail and leaves the registry entry and the session
untouched. -/
theorem dispose_failure_handling (sess : Main.Session) (reg : Main.Registry)
    (u : String) (a : Main.Agent) (hu : sess.uuid = some u)
    (ha : reg.lookup u = some a) (hc : a.closeFails = true) :
    Main.reset sess reg = ⟨some .closeError, sess, reg⟩ ∧
    ∀ r : Main.Registry,
      (Main.lifespan_shutdown r).error = none ∧
      (Main.lifespan_shutdown r).spawnedCloses = r.map (·.2) := by
  refine ⟨?_, fun r => ⟨rfl, rfl⟩⟩
  simp [Main.reset, hu, ha, hc]

/-- C5 witness at a concrete instance. -/
theorem dispose_failure_handling_witness :
    Main.reset ⟨some "v", none, none⟩ [("v", ⟨3, true⟩)] =
      ⟨some .closeError, ⟨some "v", none, none⟩, [("v", ⟨3, true⟩)]⟩ ∧
    ∀ r : Main.Registry,
      (Main.lifespan_shutdown r).error = none ∧
      (Main.lifespan_shutdown r).spawnedCloses = r.map (·.2) :=
  dispose_failure_handling ⟨some "v", none, none⟩ [("v", ⟨3, true⟩)]
    "v" ⟨3, true⟩ rfl (by decide) rfl

/-- A successful registry lookup yields an agent that is among the
registry's values. -/
theorem lookup_mem_values {reg : Main.Registry} {u : String} {a : Main.Agent}
    (h : reg.lookup u = some a) : a ∈ reg.map (·.2) := by
  induction reg with
  | nil => simp [List.lookup] at h
  | cons p t ih =>
    rcases p with ⟨k, b⟩
    by_cases hk : (u == k) = true
    · rw [List.lookup, hk] at h
      simp only [Option.some.injEq] at h
      subst h
      simp
    · rw [List.lookup, Bool.eq_false_iff.mpr hk] at h
      simpa using Or.inr (ih h)

/-- C10: a login on a request that already has a session installs a
fresh uuid and the base history, registers a newly constructed agent
under the fresh uuid, and leaves the previous uuid's registry entry
unchanged; login closes no agent's network client, and the old agent (if
registered) is still among the clients closed at process shutdown. -/
theorem login_preserves_old_agent (fu : String) (fa : Main.Agent)
    (cred : String) (sess : Main.Session) (reg : Main.Registry)
    (oldU : String) (hold : sess.uuid = some oldU) (hne : fu ≠ oldU) :
    sess.uuid = some oldU ∧
    Main.login_google fu fa (some cred) sess reg =
      .ok ({ sess with uuid := some fu, messages := some Main.BASE_HISTORY },
           (fu, fa) :: reg, []) ∧
    ((fu, fa) :: reg : Main.Registry).lookup fu = some fa ∧
    ((fu, fa) :: reg : Main.Registry).lookup oldU = reg.lookup oldU ∧
    ∀ a : Main.Agent, reg.lookup oldU = some a →
      a ∈ (Main.lifespan_shutdown ((fu, fa) :: reg)).spawnedCloses := by
  refine ⟨hold, rfl, ?_, ?_, ?_⟩
  · rw [List.lookup, beq_self_eq_true]
  · rw [List.lookup, beq_eq_false_iff_ne.mpr (Ne.symm hne)]
  · intro a ha
    have := lookup_mem_values ha
    simp [Main.lifespan_shutdown]
    simpa using Or.inr this

/-- C10 witness at a concrete instance. -/
theorem login_preserves_old_agent_witness :
    (⟨some "u1", some Main.BASE_HISTORY, none⟩ : Main.Session).uuid =
      some "u1" ∧
    Main.login_google "u2" ⟨1, false⟩ (some "cred")
        ⟨some "u1", some Main.BASE_HISTORY, none⟩ [("u1", ⟨0, false⟩)] =
      .ok (⟨some "u2", some Main.BASE_HISTORY, none⟩,
           [("u2", ⟨1, false⟩), ("u1", ⟨0, false⟩)], []) ∧
    ([("u2", ⟨1, false⟩), ("u1", ⟨0, false⟩)] : Main.Registry).lookup "u2" =
      some ⟨1, false⟩ ∧
    ([("u2", ⟨1, false⟩), ("u1", ⟨0, false⟩)] : Main.Registry).lookup "u1" =
      ([("u1", ⟨0, false⟩)] : Main.Registry).lookup "u1" ∧
    ∀ a : Main.Agent,
      ([("u1", ⟨0, false⟩)] : Main.Registry).lookup "u1" = some a →
      a ∈ (Main.lifespan_shutdown
            [("u2", ⟨1, false⟩), ("u1", ⟨0, false⟩)]).spawnedCloses :=
  login_preserves_old_agent "u2" ⟨1, false⟩ "cred"
    ⟨some "u1", some Main.BASE_HISTORY, none⟩ [("u1", ⟨0, false⟩)]
    "u1" rfl (by decide)

/-- The session returned by the chat handler is either unchanged or has a
suffix appended to its existing message list. -/
theorem chat_handler_session_shape (fmt : String → String)
    (res : Except String String) (prompt : String) (sess : Main.Session)
    (reg : Main.Registry) :
    (Main.chat_handler fmt res prompt sess reg).1 = sess ∨
    ∃ msgs l, sess.messages = some msgs ∧
      (Main.chat_handler fmt res prompt sess reg).1 =
        { sess with messages := some (msgs ++ l) } := by
  by_cases hp : prompt = ""
  · left; simp [Main.chat_handler, hp]
  · cases hu : sess.uuid with
    | none => left; simp [Main.chat_handler, hp, hu]
    | some u =>
      cases hm : sess.messages with
      | none => left; simp [Main.chat_handler, hp, hu, hm]
      | some msgs =>
        cases ha : reg.lookup u with
        | none =>
          right
          exact ⟨msgs, [⟨"user", prompt⟩], rfl,
            by simp [Main.chat_handler, hp, hu, hm, ha]⟩
        | some a =>
          cases res with
          | error e =>
            right
            exact ⟨msgs, [⟨"user", prompt⟩], rfl,
              by simp [Main.chat_handler, hp, hu, hm, ha]⟩
          | ok r =>
            right
            exact ⟨msgs, [⟨"user", prompt⟩, ⟨"assistant", r⟩], rfl,
              by simp [Main.chat_handler, hp, hu, hm, ha]⟩

/-- Any sequence of chat calls preserves the head of the message list. -/
theorem runChats_head (reg : Main.Registry) (g : Main.ChatTurn)
    (evs : List (String × Except String String)) :
    ∀ sess : Main.Session,
      (∀ ms, sess.messages = some ms → ms.head? = some g) →
      ∀ ms, (Main.runChats reg sess evs).messages = some ms →
        ms.head? = some g := by
  induction evs with
  | nil => intro sess h ms hms; exact h ms hms
  | cons ev t ih =>
    intro sess h ms hms
    have hstep : ∀ ms', (Main.chatStep reg sess ev).messages = some ms' →
        ms'.head? = some g := by
      intro ms' hms'
      unfold Main.chatStep at hms'
      rcases chat_handler_session_shape id ev.2 ev.1 sess reg with hsh |
          ⟨msgs, l, hmm, hsh⟩
      · rw [hsh] at hms'
        exact h ms' hms'
      · rw [hsh] at hms'
        simp only [Option.some.injEq] at hms'
        have hg := h msgs hmm
        cases msgs with
        | nil => simp at hg
        | cons m t2 =>
          simp only [List.head?_cons, Option.some.injEq] at hg
          subst hg
          simp [← hms']
    have : Main.runChats reg sess (ev :: t) =
        Main.runChats reg (Main.chatStep reg sess ev) t := rfl
    rw [this] at hms
    exact ih (Main.chatStep reg sess ev) hstep ms hms

/-- A freshly created session (first index visit or login) holds exactly
the base history, whose head is the greeting. -/
theorem created_head (sess : Main.Session) (reg : Main.Registry)
    (hc : Main.Created sess reg) :
    ∀ ms, sess.messages = some ms →
      ms.head? = some (⟨"assistant", "How can I help you?"⟩ : Main.ChatTurn) := by
  intro ms hms
  cases hc with
  | viaIndex s0 r0 fu fa cid h =>
    obtain ⟨su, sm, sc⟩ := s0
    have h' : su = none := h
    subst h'
    have hidx : (Main.index fu fa cid ⟨none, sm, sc⟩ r0).1.messages =
        some Main.BASE_HISTORY := by
      cases hlk : List.lookup fu r0 with
      | none => simp [Main.index, hlk]
      | some a => simp [Main.index, hlk]
    rw [hidx] at hms
    cases hms
    rfl
  | viaLogin s0 r0 fu fa cred s2 reg2 cl h =>
    simp only [Main.login_google, Except.ok.injEq, Prod.mk.injEq] at h
    rw [← h.1] at hms
    have hms' : some Main.BASE_HISTORY = some ms := hms
    cases hms'
    rfl

/-- C8: every session created by a first index visit or by a login starts
with the fixed assistant greeting, and it still does after any sequence
of chat calls: chat only ever appends turns. -/
theorem session_starts_with_greeting (sess : Main.Session)
    (reg : Main.Registry) (hc : Main.Created sess reg)
    (evs : List (String × Except String String)) (ms : List Main.ChatTurn)
    (hm : (Main.runChats reg sess evs).messages = some ms) :
    ms.head? = some (⟨"assistant", "How can I help you?"⟩ : Main.ChatTurn) :=
  runChats_head reg _ evs sess (created_head sess reg hc) ms hm

/-- C8 witness: a concrete session created by login, after one successful
chat call. -/
theorem session_starts_with_greeting_witness :
    (Main.runChats [("u1", ⟨0, false⟩)]
        ⟨some "u1", some Main.BASE_HISTORY, none⟩
        [("hi", .ok "r")]).messages =
      some [⟨"assistant", "How can I help you?"⟩, ⟨"user", "hi"⟩,
            ⟨"assistant", "r"⟩] ∧
    ([⟨"assistant", "How can I help you?"⟩, ⟨"user", "hi"⟩,
      ⟨"assistant", "r"⟩] : List Main.ChatTurn).head? =
      some ⟨"assistant", "How can I help you?"⟩ :=
  ⟨by decide,
   session_starts_with_greeting ⟨some "u1", some Main.BASE_HISTORY, none⟩
     [("u1", ⟨0, false⟩)]
     (Main.Created.viaLogin ⟨none, none, none⟩ [] "u1" ⟨0, false⟩ "c"
       ⟨some "u1", some Main.BASE_HISTORY, none⟩ [("u1", ⟨0, false⟩)] [] rfl)
     [("hi", .ok "r")] _ (by decide)⟩

/-- C3 counterexample: for session id "s", the schedule that runs both
membership checks before either construction completes makes both tasks
construct an agent (two constructions, `nextId = 2`) and return *distinct*
instances — the second insertion overwrites the first. -/
theorem race_double_construction_cex :
    Race.run "s" Race.init [true, false, true, false] =
      ⟨⟨[("s", 1), ("s", 0)], 2⟩, .done 0, .done 1⟩ ∧
    Race.TPC.done 0 ≠ Race.TPC.done 1 := by decide

/-- C3 (amended): an invocation that finds the session id registered
returns the existing agent without constructing one — in particular two
*sequential* invocations for the same id return the same instance with a
single construction — but concurrent first-creation is not protected, so
the at-most-one-construction guarantee does not hold (see the
counterexample). -/
theorem race_reuse_and_sequential (u : String) (st : Race.RState) (a : Nat)
    (h : st.reg.lookup u = some a) :
    Race.taskStep u st .ready = (st, .done a) ∧
    ∀ v : String, Race.run v Race.init [true, true, false, false] =
      ⟨⟨[(v, 0)], 1⟩, .done 0, .done 0⟩ := by
  constructor
  · simp [Race.taskStep, h]
  · intro v
    simp [Race.run, Race.init, Race.schedStep, Race.taskStep, List.lookup]

/-- C3 witness at a concrete instance. -/
theorem race_reuse_and_sequential_witness :
    Race.taskStep "s" ⟨[("s", 5)], 6⟩ .ready = (⟨[("s", 5)], 6⟩, .done 5) ∧
    ∀ v : String, Race.run v Race.init [true, true, false, false] =
      ⟨⟨[(v, 0)], 1⟩, .done 0, .done 0⟩ :=
  race_reuse_and_sequential "s" ⟨[("s", 5)], 6⟩ 5 (by decide)
